import Mathlib

/-!
Shallow embedding of the product-scraper component
(src/src/components/ProductScraper.tsx).

The component keeps three pieces of React state: the input text, a
loading flag and the last successful product record.  We embed that
state as an explicit record, the scrape handler as pure transition
functions (the synchronous prefix of the handler and the two
continuations of the awaited request), and the two export handlers as
pure functions from the optional record to an optional file payload.
JavaScript string primitives used by the component
(String.prototype.includes, trim, replace of all double quotes,
Array.prototype.join, and the truthiness of strings in the expression
with the logical-or operator) are modelled character-exactly below.
-/

namespace ProductScraper

/-- The shape of the scrape response, interface ProductData of the
source (price is the nested object with required original and optional
discounted). -/
structure Price where
  original : String
  discounted : Option String
deriving DecidableEq

/-- interface ProductData of the source. -/
structure ProductData where
  product_name : String
  price : Price
  description : String
  variants : List String
  image_urls : List String
deriving DecidableEq

/-- Does the first list start with the second (character comparison)? -/
def listStartsWith : List Char → List Char → Bool
  | _, [] => true
  | [], _ :: _ => false
  | a :: as, b :: bs => a == b && listStartsWith as bs

/-- Does the first list contain the second as a contiguous run? -/
def listContainsSeq : List Char → List Char → Bool
  | [], needle => needle.isEmpty
  | a :: as, needle => listStartsWith (a :: as) needle || listContainsSeq as needle

/-- JavaScript String.prototype.includes(needle). -/
def jsIncludes (s needle : String) : Bool :=
  listContainsSeq s.toList needle.toList

/-- JavaScript String.prototype.trim: strip leading and trailing
whitespace. -/
def jsTrim (s : String) : String :=
  String.mk
    (List.reverse (List.dropWhile Char.isWhitespace
      (List.reverse (List.dropWhile Char.isWhitespace s.toList))))

/-- The JavaScript expression d || two-single-quotes on an optional
string d: undefined and the empty string are falsy, every other string
is truthy and kept. -/
def jsOrEmpty : Option String → String
  | none => ""
  | some s => if s = "" then "" else s

/-- validateAmazonUrl of the source, lines 29-31: the string contains
the fragment amazon. and one of the product-path markers. -/
def validateAmazonUrl (url : String) : Bool :=
  jsIncludes url ("amazon.") && (jsIncludes url ("/dp/") || jsIncludes url ("/gp/"))

/-- The headers array of exportToCSV, source line 76. -/
def csvHeaders : List String :=
  [("Product Name"), ("Original Price"), ("Discounted Price"),
   ("Description"), ("Variants"), ("Image URLs")]

/-- description.replace of every double quote by two double quotes,
source line 81. -/
def escapeQuotes (s : String) : String :=
  String.mk (s.toList.foldr (fun c acc => if c == '"' then '"' :: '"' :: acc else c :: acc) [])

/-- Wrap a field in double quotes, the template literal of source
lines 88-89. -/
def quoteField (s : String) : String :=
  "\"" ++ s ++ "\""

/-- The data array of exportToCSV, source lines 77-84: description is
quote-escaped, the other fields are taken as they are. -/
def csvData (p : ProductData) : List String :=
  [p.product_name,
   p.price.original,
   jsOrEmpty p.price.discounted,
   escapeQuotes p.description,
   String.intercalate ("; ") p.variants,
   String.intercalate ("; ") p.image_urls]

/-- csvContent of the source, lines 87-90: the quoted headers joined by
commas, a newline, the quoted data fields joined by commas. -/
def csvContent (p : ProductData) : String :=
  String.intercalate ("\n")
    [String.intercalate (",") (List.map quoteField csvHeaders),
     String.intercalate (",") (List.map quoteField (csvData p))]

/-- exportToCSV of the source, lines 72-94: nothing happens with no
record; with a record, the delimited text is saved under the fixed
filename. The result pairs the filename with the payload handed to the
file-save sink. -/
def exportToCSV (productData : Option ProductData) : Option (String × String) :=
  match productData with
  | none => none
  | some p => some (("amazon-product.csv"), csvContent p)

/-- A worksheet: its rows, each a list of cell texts. -/
structure Worksheet where
  rows : List (List String)
deriving DecidableEq

/-- A workbook: named sheets in order. -/
structure Workbook where
  sheets : List (String × Worksheet)
deriving DecidableEq

/-- The column labels of the object literal passed to json_to_sheet,
source lines 99-106, in property order. -/
def excelHeaders : List String :=
  [("Product Name"), ("Original Price"), ("Discounted Price"),
   ("Description"), ("Variants"), ("Image URLs")]

/-- The cell values of the object literal passed to json_to_sheet,
source lines 99-106, in property order: the description is the raw
description here. -/
def excelRow (p : ProductData) : List String :=
  [p.product_name,
   p.price.original,
   jsOrEmpty p.price.discounted,
   p.description,
   String.intercalate ("; ") p.variants,
   String.intercalate ("; ") p.image_urls]

/-- exportToExcel of the source, lines 96-111: nothing with no record;
with a record, json_to_sheet of one object yields one header row (the
property names) and one data row (the property values); the sheet is
appended to a fresh workbook under the name Product Data and written
under the fixed filename. -/
def exportToExcel (productData : Option ProductData) : Option (String × Workbook) :=
  match productData with
  | none => none
  | some p =>
      some (("amazon-product.xlsx"),
            Workbook.mk [(("Product Data"), Worksheet.mk [excelHeaders, excelRow p])])

/-- The session status of the spec: Idle before any request, Pending
while the request is awaited (the loading flag of the source), then
Succeeded or Failed. -/
inductive Status where
  | Idle
  | Pending
  | Succeeded
  | Failed
deriving DecidableEq

/-- What a resolved scrape response body can be.  The code stores
response.data with setProductData without any structural validation,
so a 2xx body that does not match the ProductData shape is stored all
the same; we keep such bodies abstract as raw text. -/
inductive ResponseData where
  | wellFormed (p : ProductData)
  | malformed (raw : String)
deriving DecidableEq

/-- The component state: url, loading and productData of the source
lines 24-26, plus the spec-level status driven by exactly the code
transitions (loading true iff status Pending).  The stored value is
whatever resolved body was last assigned, shape-checked nowhere. -/
structure SessionState where
  url : String
  loading : Bool
  productData : Option ResponseData
  status : Status
deriving DecidableEq

/-- The initial React state: empty url, not loading, no record. -/
def initialState : SessionState :=
  SessionState.mk ("") false none Status.Idle

/-- What one call of handleScrape does before the await: the toast
titles it emits, the urls it posts to the scrape endpoint, and the
state it leaves. -/
structure SubmitOutcome where
  notifications : List String
  requests : List String
  state : SessionState
deriving DecidableEq

/-- The synchronous prefix of handleScrape, source lines 33-54: reject
a blank (trimmed-empty) url with the URL Required toast; reject a url
failing validateAmazonUrl with the Invalid URL toast; otherwise set
loading and post the untrimmed url, exactly once, to the scrape
endpoint. -/
def handleScrapeStart (s : SessionState) : SubmitOutcome :=
  if jsTrim s.url = "" then
    SubmitOutcome.mk [("URL Required")] [] s
  else if validateAmazonUrl s.url = false then
    SubmitOutcome.mk [("Invalid URL")] [] s
  else
    SubmitOutcome.mk [] [s.url] { s with loading := true, status := Status.Pending }

/-- The try branch after the await, source lines 55-59 and the finally
block: setProductData(response.data) stores the resolved body whatever
its shape, the Success toast fires, loading is cleared.  This runs for
every resolved (2xx) response; the body is never shape-checked. -/
def handleScrapeSuccess (d : ResponseData) (s : SessionState) : SessionState :=
  { s with productData := some d, status := Status.Succeeded, loading := false }

/-- The catch branch of handleScrape, source lines 60-66 and the
finally block: the record is not touched, loading is cleared. -/
def handleScrapeFailure (s : SessionState) : SessionState :=
  { s with status := Status.Failed, loading := false }

/-- The ways the awaited axios call rejects and so reaches the catch
branch: a transport-level error or a non-2xx response status.  A
resolved response never rejects on body shape, so a malformed payload
is not among these kinds; it takes the try branch instead. -/
inductive FailureKind where
  | transportError
  | nonSuccessStatus (code : Nat)
deriving DecidableEq

/-- The session together with the request bookkeeping: how many scrape
requests are outstanding and how many were ever issued. -/
structure Sys where
  sess : SessionState
  inflight : Nat
  totalRequests : Nat
deriving DecidableEq

/-- The external stimuli of the component: the scrape button, an
outstanding request resolving with some body (well formed or not), an
outstanding request rejecting, an edit of the input field. -/
inductive Event where
  | clickScrape
  | respondResolved (d : ResponseData)
  | respondFailure (k : FailureKind)
  | editUrl (t : String)

/-- The guard of the scrape button, source line 149: disabled while
loading or while the trimmed url is empty. -/
def buttonEnabled (s : SessionState) : Bool :=
  !(s.loading || (jsTrim s.url == ""))

/-- One step of the user-interface system.  The button only fires when
enabled; a response only arrives when a request is outstanding; the
input field is disabled while loading (source line 144).  Every
resolved response takes the try branch and stores its body verbatim;
only a rejection (transport error or non-2xx) takes the catch
branch. -/
def step (w : Sys) : Event → Sys
  | Event.clickScrape =>
      if buttonEnabled w.sess then
        Sys.mk (handleScrapeStart w.sess).state
          (w.inflight + (handleScrapeStart w.sess).requests.length)
          (w.totalRequests + (handleScrapeStart w.sess).requests.length)
      else w
  | Event.respondResolved d =>
      match w.inflight with
      | 0 => w
      | n + 1 => Sys.mk (handleScrapeSuccess d w.sess) n w.totalRequests
  | Event.respondFailure _ =>
      match w.inflight with
      | 0 => w
      | n + 1 => Sys.mk (handleScrapeFailure w.sess) n w.totalRequests
  | Event.editUrl t =>
      if w.sess.loading then w
      else Sys.mk { w.sess with url := t } w.inflight w.totalRequests

/-- The system at session start: initial state, no request ever made. -/
def initSys : Sys :=
  Sys.mk initialState 0 0

/-- The states the system can reach from session start. -/
inductive Reachable : Sys → Prop where
  | init : Reachable initSys
  | next : ∀ (w : Sys) (e : Event), Reachable w → Reachable (step w e)

/-- The single-flight invariant: never more than one outstanding
request, the loading flag tracks it exactly, and the status is Pending
exactly while loading. -/
def SysInv (w : Sys) : Prop :=
  w.inflight ≤ 1 ∧ (w.sess.loading = true ↔ w.inflight = 1) ∧
    (w.sess.status = Status.Pending ↔ w.sess.loading = true)

/-- The claim of the delimited-text export as the spec words it: every
one of the six raw field values is quote-escaped and then wrapped.
This is the comparison point for the export the code builds; it is not
the code. -/
def rawFields (p : ProductData) : List String :=
  [p.product_name,
   p.price.original,
   jsOrEmpty p.price.discounted,
   p.description,
   String.intercalate ("; ") p.variants,
   String.intercalate ("; ") p.image_urls]

/-- The fully escaped delimited text the claim describes (see
rawFields). -/
def csvContentFullyEscaped (p : ProductData) : String :=
  String.intercalate ("\n")
    [String.intercalate (",") (List.map quoteField csvHeaders),
     String.intercalate (",") (List.map (fun v => quoteField (escapeQuotes v)) (rawFields p))]

/-- A record whose name carries a literal double quote. -/
def cexRecordC1 : ProductData :=
  ProductData.mk ("15\" Laptop") (Price.mk ("$10") none) ("desc") [] []

/-- A record like the one of the end-to-end scenario of the spec. -/
def sampleRecord : ProductData :=
  ProductData.mk ("Widget") (Price.mk ("$10.00") none) ("") [] []

/-- A product url accepted by the validator. -/
def goodUrl : String :=
  ("https://www.amazon.in/widget/dp/B000123456")

/-- A session whose input is whitespace only. -/
def sBlank : SessionState :=
  SessionState.mk ("   ") false none Status.Idle

/-- A session whose input is a valid product url. -/
def sGood : SessionState :=
  SessionState.mk goodUrl false none Status.Idle

/-- A session whose input is a valid product url with leading and
trailing whitespace. -/
def sSpaced : SessionState :=
  SessionState.mk ("  https://www.amazon.in/widget/dp/B000123456  ") false none Status.Idle

/-- The system after editing in a valid url and clicking scrape: one
request in flight. -/
def sysPending : Sys :=
  step (step initSys (Event.editUrl goodUrl)) Event.clickScrape

/-- A system holding a record of a prior success while a fresh request
is in flight. -/
def sysStale : Sys :=
  Sys.mk
    (SessionState.mk goodUrl true (some (ResponseData.wellFormed sampleRecord)) Status.Pending)
    1 2

/-- A resolved 2xx body that does not match the ProductData shape. -/
def junkPayload : ResponseData :=
  ResponseData.malformed ("an html error page")

/-- Claim C1, as stated: in the delimited-text export every one of the
six fields is quote-wrapped with every inner double quote doubled.
False: the code escapes only the description field, so a record whose
name holds a double quote is exported with that quote unescaped. -/
theorem claim1_counterexample :
    csvContent cexRecordC1 ≠ csvContentFullyEscaped cexRecordC1 := by
  decide

/-- Claim C1, amended: each of the six fields is wrapped in double
quotes, but the doubling escape is applied to the description field
only; double quotes inside the other five fields are emitted
unescaped.  The escape itself doubles every quote, as on the spec
example. -/
theorem claim1_amended (p : ProductData) :
    csvData p =
      [p.product_name,
       p.price.original,
       jsOrEmpty p.price.discounted,
       escapeQuotes p.description,
       String.intercalate ("; ") p.variants,
       String.intercalate ("; ") p.image_urls]
    ∧ csvContent p =
      String.intercalate (",") (List.map quoteField csvHeaders) ++ ("\n") ++
        String.intercalate (",") (List.map quoteField (csvData p))
    ∧ escapeQuotes ("Great \"value\" item") = ("Great \"\"value\"\" item") :=
  ⟨rfl, rfl, by decide⟩

/-- Claim C3: the delimited-text export is exactly a header line and
one data line joined by a newline, each line six comma-joined quoted
fields, data in the fixed order name, original price, discounted price
(empty when absent), description, variants joined by semicolon-space,
image urls joined by semicolon-space, positionally matching the
header order. -/
theorem claim3_export_two_lines (p : ProductData) :
    exportToCSV (some p) =
      some (("amazon-product.csv"),
        String.intercalate (",") (List.map quoteField csvHeaders) ++ ("\n") ++
          String.intercalate (",")
            (List.map quoteField
              [p.product_name,
               p.price.original,
               jsOrEmpty p.price.discounted,
               escapeQuotes p.description,
               String.intercalate ("; ") p.variants,
               String.intercalate ("; ") p.image_urls]))
    ∧ csvHeaders.length = 6 ∧ (csvData p).length = 6 :=
  ⟨rfl, rfl, rfl⟩

/-- Claim C4: the validator accepts exactly the strings containing the
marketplace-domain fragment together with at least one of the two
product-path markers; a domain-only url is rejected, a url with either
marker is accepted, and the markers may occur in any order relative to
the domain fragment. -/
theorem claim4_validator :
    (∀ u : String, validateAmazonUrl u = true ↔
        (jsIncludes u ("amazon.") = true ∧
          (jsIncludes u ("/dp/") = true ∨ jsIncludes u ("/gp/") = true)))
    ∧ validateAmazonUrl ("https://www.amazon.in") = false
    ∧ validateAmazonUrl ("https://www.amazon.in/widget/dp/B000123456") = true
    ∧ validateAmazonUrl ("https://www.amazon.in/gp/product/B000123456") = true
    ∧ validateAmazonUrl ("https://example.com/dp/B000123456?ref=amazon.in") = true := by
  refine ⟨?_, by decide, by decide, by decide, by decide⟩
  intro u
  simp [validateAmazonUrl, Bool.and_eq_true, Bool.or_eq_true]

/-- Claim C7: the spreadsheet export is a workbook with exactly one
sheet, named Product Data, holding one header row with the same six
column labels as the delimited-text export and one data row with the
six record values in the same fixed order, discounted price rendered
empty when absent and the two lists joined by semicolon-space. -/
theorem claim7_export_workbook (p : ProductData) :
    exportToExcel (some p) =
      some (("amazon-product.xlsx"),
        Workbook.mk [(("Product Data"),
          Worksheet.mk
            [excelHeaders,
             [p.product_name,
              p.price.original,
              jsOrEmpty p.price.discounted,
              p.description,
              String.intercalate ("; ") p.variants,
              String.intercalate ("; ") p.image_urls]])])
    ∧ excelHeaders = csvHeaders ∧ excelHeaders.length = 6 :=
  ⟨rfl, rfl, rfl⟩

/-- Claim C8: with no record available both export handlers return at
once, handing nothing to the file-save sink; being pure functions of
the optional record they touch no other state. -/
theorem claim8_export_noop_without_record :
    exportToCSV none = none ∧ exportToExcel none = none :=
  ⟨rfl, rfl⟩

/-- Claim C9: a discounted price that is present but empty (the one
falsy non-absent value of an optional string) renders in both exports
exactly as an absent discounted price. -/
theorem claim9_empty_discounted (nm orig desc : String) (vs imgs : List String) :
    exportToCSV (some (ProductData.mk nm (Price.mk orig (some (""))) desc vs imgs)) =
      exportToCSV (some (ProductData.mk nm (Price.mk orig none) desc vs imgs))
    ∧ exportToExcel (some (ProductData.mk nm (Price.mk orig (some (""))) desc vs imgs)) =
      exportToExcel (some (ProductData.mk nm (Price.mk orig none) desc vs imgs)) :=
  ⟨rfl, rfl⟩

/-- Claim C2, as stated: a failure of any of the three kinds, the
malformed payload among them, leaves a stored record unchanged and
makes the status Failed.  False: the catch branch only runs when the
awaited call rejects, and a resolved 2xx body is stored by
setProductData without any shape check, so at a session holding a
prior record a malformed 2xx response overwrites the record and the
status becomes Succeeded, not Failed. -/
theorem claim2_counterexample :
    (step sysStale (Event.respondResolved junkPayload)).sess.productData ≠
      some (ResponseData.wellFormed sampleRecord)
    ∧ (step sysStale (Event.respondResolved junkPayload)).sess.status ≠ Status.Failed := by
  decide

/-- Claim C2, amended: while a request is outstanding, a rejection of
the request (transport error or non-2xx status) leaves a previously
stored record exactly as it was and flips the status to Failed; a
resolved but structurally malformed payload is not treated as a
failure: it overwrites the stored record and the status becomes
Succeeded. -/
theorem claim2_rejection_preserves_record (w : Sys) (d : ResponseData) (k : FailureKind)
    (raw : String) (hin : w.inflight = 1) (hrec : w.sess.productData = some d) :
    ((step w (Event.respondFailure k)).sess.productData = some d
      ∧ (step w (Event.respondFailure k)).sess.status = Status.Failed)
    ∧ ((step w (Event.respondResolved (ResponseData.malformed raw))).sess.productData =
        some (ResponseData.malformed raw)
      ∧ (step w (Event.respondResolved (ResponseData.malformed raw))).sess.status =
        Status.Succeeded) := by
  obtain ⟨sess, inflight, total⟩ := w
  simp only at hin hrec
  subst hin
  simp [step, handleScrapeFailure, handleScrapeSuccess, hrec]

/-- Claim C2 witness: a concrete stale session with one outstanding
request keeps its record through a transport rejection and shows
Failed, while a resolved malformed body replaces the record and shows
Succeeded. -/
theorem claim2_witness :
    ((step sysStale (Event.respondFailure FailureKind.transportError)).sess.productData =
        some (ResponseData.wellFormed sampleRecord)
      ∧ (step sysStale (Event.respondFailure FailureKind.transportError)).sess.status =
        Status.Failed)
    ∧ ((step sysStale (Event.respondResolved (ResponseData.malformed ("an html error page")))).sess.productData =
        some (ResponseData.malformed ("an html error page"))
      ∧ (step sysStale (Event.respondResolved (ResponseData.malformed ("an html error page")))).sess.status =
        Status.Succeeded) :=
  claim2_rejection_preserves_record sysStale (ResponseData.wellFormed sampleRecord)
    FailureKind.transportError ("an html error page") rfl rfl

/-- Claim C5: a blank input is rejected with the URL Required toast and
a non-blank input failing the validator with the Invalid URL toast, in
both cases issuing no request and leaving the state untouched; an
input passing both checks issues exactly one request, emits no
rejection, moves the status to Pending and keeps the stored record. -/
theorem claim5_submit_guarded (s : SessionState) :
    (jsTrim s.url = ("") →
      handleScrapeStart s = SubmitOutcome.mk [("URL Required")] [] s)
    ∧ (jsTrim s.url ≠ ("") → validateAmazonUrl s.url = false →
      handleScrapeStart s = SubmitOutcome.mk [("Invalid URL")] [] s)
    ∧ (jsTrim s.url ≠ ("") → validateAmazonUrl s.url = true →
      (handleScrapeStart s).notifications = []
      ∧ (handleScrapeStart s).requests.length = 1
      ∧ (handleScrapeStart s).state.status = Status.Pending
      ∧ (handleScrapeStart s).state.productData = s.productData) := by
  refine ⟨fun h => ?_, fun h1 h2 => ?_, fun h1 h2 => ?_⟩
  · simp [handleScrapeStart, h]
  · simp [handleScrapeStart, h1, h2]
  · simp [handleScrapeStart, h1, h2]

/-- Claim C5 witness: the whitespace-only input is rejected untouched,
and the valid input issues one request and goes Pending. -/
theorem claim5_witness :
    handleScrapeStart sBlank = SubmitOutcome.mk [("URL Required")] [] sBlank
    ∧ ((handleScrapeStart sGood).requests.length = 1
      ∧ (handleScrapeStart sGood).state.status = Status.Pending) :=
  ⟨(claim5_submit_guarded sBlank).1 (by decide),
   ⟨((claim5_submit_guarded sGood).2.2 (by decide) (by decide)).2.1,
    ((claim5_submit_guarded sGood).2.2 (by decide) (by decide)).2.2.1⟩⟩

/-- Claim C10: every accepted submission posts the input string
verbatim, whitespace included; the trim is used only by the blank
check. -/
theorem claim10_request_verbatim (s : SessionState)
    (h1 : jsTrim s.url ≠ ("")) (h2 : validateAmazonUrl s.url = true) :
    (handleScrapeStart s).requests = [s.url] := by
  simp [handleScrapeStart, h1, h2]

/-- Claim C10 witness: a valid url padded with spaces is posted with
its padding intact. -/
theorem claim10_witness :
    (handleScrapeStart sSpaced).requests =
      [("  https://www.amazon.in/widget/dp/B000123456  ")] :=
  claim10_request_verbatim sSpaced (by decide) (by decide)

/-- The single-flight invariant holds at session start. -/
theorem sysInv_init : SysInv initSys := by
  refine ⟨by decide, ?_, ?_⟩ <;> simp [initSys, initialState]

/-- Every step preserves the single-flight invariant. -/
theorem sysInv_step (w : Sys) (e : Event) (h : SysInv w) : SysInv (step w e) := by
  obtain ⟨h1, h2, h3⟩ := h
  cases e with
  | clickScrape =>
      by_cases hb : buttonEnabled w.sess = true
      · have hb' := hb
        simp only [buttonEnabled, Bool.not_eq_true', Bool.or_eq_false_iff,
          beq_eq_false_iff_ne] at hb'
        obtain ⟨hload, htrim⟩ := hb'
        have hin0 : w.inflight = 0 := by
          have hne : w.inflight ≠ 1 := by
            intro hh
            have hcon := h2.mpr hh
            rw [hload] at hcon
            exact Bool.false_ne_true hcon
          omega
        by_cases hv : validateAmazonUrl w.sess.url = true
        · have hcond2 : ¬ (validateAmazonUrl w.sess.url = false) := by simp [hv]
          simp [SysInv, step, hb, handleScrapeStart, htrim, hcond2, hin0]
        · have hv' : validateAmazonUrl w.sess.url = false := by
            cases hvv : validateAmazonUrl w.sess.url with
            | false => rfl
            | true => exact absurd hvv hv
          simp only [step, hb, if_true, handleScrapeStart, if_neg htrim, if_pos hv']
          exact ⟨by simpa using h1, by simpa using h2, h3⟩
      · have hb' : buttonEnabled w.sess = false := by
          cases hbb : buttonEnabled w.sess with
          | false => rfl
          | true => exact absurd hbb hb
        simp only [step, hb', Bool.false_eq_true, if_false]
        exact ⟨h1, h2, h3⟩
  | respondResolved d =>
      cases hin : w.inflight with
      | zero =>
          simp only [step, hin]
          exact ⟨h1, h2, h3⟩
      | succ n =>
          have hn : n = 0 := by rw [hin] at h1; omega
          subst hn
          simp [SysInv, step, hin, handleScrapeSuccess]
  | respondFailure k =>
      cases hin : w.inflight with
      | zero =>
          simp only [step, hin]
          exact ⟨h1, h2, h3⟩
      | succ n =>
          have hn : n = 0 := by rw [hin] at h1; omega
          subst hn
          simp [SysInv, step, hin, handleScrapeFailure]
  | editUrl t =>
      by_cases hl : w.sess.loading = true
      · simp only [step, hl, if_true]
        exact ⟨h1, h2, h3⟩
      · have hl' : w.sess.loading = false := by
          cases hll : w.sess.loading with
          | false => rfl
          | true => exact absurd hll hl
        simp only [step, hl', Bool.false_eq_true, if_false]
        rw [hl'] at h2 h3
        exact ⟨h1, h2, h3⟩

/-- Every reachable system state satisfies the single-flight
invariant. -/
theorem reachable_sysInv (w : Sys) (hw : Reachable w) : SysInv w := by
  induction hw with
  | init => exact sysInv_init
  | next w e hw ih => exact sysInv_step w e ih

/-- Claim C6: in every reachable state at most one scrape request is
outstanding, and while the status is Pending a click of the scrape
button is a no-op (the button is disabled), so no second request is
ever issued while one is in flight. -/
theorem claim6_single_flight (w : Sys) (hw : Reachable w) :
    w.inflight ≤ 1
    ∧ (w.sess.status = Status.Pending → step w Event.clickScrape = w) := by
  obtain ⟨h1, h2, h3⟩ := reachable_sysInv w hw
  refine ⟨h1, fun hp => ?_⟩
  have hl : w.sess.loading = true := h3.mp hp
  have hdis : buttonEnabled w.sess = false := by simp [buttonEnabled, hl]
  simp [step, hdis]

/-- Claim C6 witness: the concrete reachable Pending state reached by
typing a valid url and clicking has one request in flight, and a
further click changes nothing. -/
theorem claim6_witness :
    sysPending.inflight ≤ 1 ∧ step sysPending Event.clickScrape = sysPending := by
  have hreach : Reachable sysPending :=
    Reachable.next (step initSys (Event.editUrl goodUrl)) Event.clickScrape
      (Reachable.next initSys (Event.editUrl goodUrl) Reachable.init)
  exact ⟨(claim6_single_flight sysPending hreach).1,
         (claim6_single_flight sysPending hreach).2 (by decide)⟩

end ProductScraper
